import Mathlib

/-!
Verification of the checkmk.py HTTP transport and resource gateway
(`src/checkmk/http.py`, `src/checkmk/host.py`, `src/checkmk/service.py`).

The embedding is a shallow, executable model of the code:
 * Python string membership (`needle in hay`) is `pyInStr`;
 * an HTTP response is `RawResponse` (status, url, Content-Type header,
   parsed Retry-After header, the result of attempting a JSON decode of the
   body, and the raw body text);
 * a decoded payload is `RespData`: either a decoded JSON object
   (represented by its key list, which is all the gateway inspects) or a
   plain text string (the JSON-decode fallback);
 * `HTTPClient.request` is `request`: the retry loop is driven by a
   sequence of per-attempt outcomes (a response, or an `aiohttp.ClientError`
   raised while performing the attempt) and produces a `ReqTrace` recording
   how many attempts were made, which backoff sleeps were performed and in
   what order, and the final result (returned payload or raised exception);
 * the gateway operations `get_hosts` / `get_services` / `add_*_comment` /
   `add_*_acknowledgement` are functions of the transport outcome;
 * `Host.acknowledge` / `Service.acknowledge` are functions of the
   resource's acknowledged flag and numeric state, paired with the number
   of transport invocations they perform.
-/

namespace Checkmk

/-- Membership of `needle` as a prefix of `hay`, on character lists. -/
def strStartsWith : List Char → List Char → Bool
  | [], _ => true
  | _ :: _, [] => false
  | n :: ns, h :: hs => n == h && strStartsWith ns hs

/-- Membership of `needle` as a contiguous substring of `hay`. -/
def strContainsSub (needle : List Char) : List Char → Bool
  | [] => needle.isEmpty
  | h :: hs => strStartsWith needle (h :: hs) || strContainsSub needle hs

/-- Python `needle in hay` on strings: contiguous substring containment. -/
def pyInStr (needle hay : String) : Bool :=
  strContainsSub needle.data hay.data

/-- Python truthiness of a string: non-empty. -/
def pyTruthyStrVal (s : String) : Bool :=
  !s.data.isEmpty

/-- A decoded response payload, as inspected by the gateway: either a decoded
JSON object (identified by its key list) or raw body text (the fallback of
`json_or_text`). -/
inductive RespData where
  | dict (keys : List String)
  | str (s : String)
deriving DecidableEq, Repr

/-- Python truthiness of a decoded payload: a non-empty dict or a non-empty
string. -/
def pyTruthyData : RespData → Bool
  | .dict keys => !keys.isEmpty
  | .str s => pyTruthyStrVal s

/-- Python `"value" in response`: key membership when the payload is a dict,
substring membership when it is a string. -/
def pyHasValueKey : RespData → Bool
  | .dict keys => keys.contains "value"
  | .str s => pyInStr "value" s

/-- An HTTP response as seen by one attempt of `HTTPClient.request`:
`jsonBody = some d` means `resp.json()` succeeds and decodes to `d`, while
`jsonBody = none` means the JSON decode raises, making `json_or_text` fall
back to `textBody`. `retryAfter` is the parsed `Retry-After` header when
present. -/
structure RawResponse where
  status : Nat
  url : String
  contentType : String
  retryAfter : Option Nat
  jsonBody : Option RespData
  textBody : String
deriving DecidableEq, Repr

/-- Model of `json_or_text` (src/checkmk/http.py lines 79-87): if the
Content-Type header contains "application/json" or "json", try the JSON
decode and fall back to the raw text on failure; otherwise return the raw
text. -/
def json_or_text (resp : RawResponse) : RespData :=
  if pyInStr "application/json" resp.contentType || pyInStr "json" resp.contentType then
    match resp.jsonBody with
    | some d => d
    | none => RespData.str resp.textBody
  else RespData.str resp.textBody

/-- The body-bearing entries of the `kwargs` dict handed to
`session.request`: the `"json"` key and the `"data"` key. -/
structure BodyKwargs where
  json : Option (List (String × String))
  data : Option String
deriving DecidableEq, Repr

/-- Python truthiness of the optional `json_body` dict argument. -/
def pyTruthyDict : Option (List (String × String)) → Bool
  | none => false
  | some d => !d.isEmpty

/-- Python truthiness of the optional raw `data` argument (modelled as a
string body). -/
def pyTruthyRaw : Option String → Bool
  | none => false
  | some s => pyTruthyStrVal s

/-- Model of the body-attachment lines of `HTTPClient.request`
(src/checkmk/http.py lines 154-158): `if json_body: kwargs["json"] = json_body`
followed by `if data: kwargs["data"] = data`. -/
def attachBodies (json_body : Option (List (String × String))) (data : Option String) :
    BodyKwargs :=
  let kw : BodyKwargs := { json := none, data := none }
  let kw := if pyTruthyDict json_body then { kw with json := json_body } else kw
  if pyTruthyRaw data then { kw with data := data } else kw

/-- The exceptions `HTTPClient.request` can raise: the typed HTTP errors of
src/checkmk/exceptions.py constructed from `(response, data)`, a re-raised
`aiohttp.ClientError`, and the `RuntimeError("Unreachable code in HTTP
handling")` at the end of the loop. -/
inductive HTTPErrorKind where
  | tooManyRequests (resp : RawResponse) (data : RespData)
  | unauthorized (resp : RawResponse) (data : RespData)
  | forbidden (resp : RawResponse) (data : RespData)
  | notFound (resp : RawResponse) (data : RespData)
  | serviceUnavailable (resp : RawResponse) (data : RespData)
  | clientError
  | runtimeUnreachable
deriving DecidableEq, Repr

/-- The result of `HTTPClient.request`: the decoded payload on 2xx, or a
raised exception. -/
inductive ReqResult where
  | success (d : RespData)
  | error (e : HTTPErrorKind)
deriving DecidableEq, Repr

/-- What one attempt of the retry loop observes: the server answered with a
response, or `aiohttp.ClientError` was raised while performing the attempt. -/
inductive AttemptOutcome where
  | response (r : RawResponse)
  | clientError

/-- The effect of one iteration of the retry loop: terminate with a result,
or go to the next iteration, optionally after a backoff sleep. `retry none`
is the fall-through case in which no status branch matches and the `for`
loop simply continues. -/
inductive StepResult where
  | done (r : ReqResult)
  | retry (sleep : Option Nat)
deriving DecidableEq, Repr

/-- Model of the body of the retry loop of `HTTPClient.request`
(src/checkmk/http.py lines 163-216): classify the attempt's outcome given
the 0-indexed attempt number and `max_retries`. A response status matching
no branch falls off the end of the loop body, which in the source continues
the `for` loop with no sleep. -/
def classifyAttempt (o : AttemptOutcome) (attempt max_retries : Nat) : StepResult :=
  match o with
  | .clientError =>
      if attempt < max_retries - 1 then .retry (some (2 ^ attempt))
      else .done (.error .clientError)
  | .response resp =>
      let data := json_or_text resp
      if 200 ≤ resp.status ∧ resp.status < 300 then
        .done (.success data)
      else if resp.status = 429 then
        if attempt < max_retries - 1 then .retry (some (resp.retryAfter.getD 60))
        else .done (.error (.tooManyRequests resp data))
      else if resp.status = 401 then
        .done (.error (.unauthorized resp data))
      else if resp.status = 403 then
        .done (.error (.forbidden resp data))
      else if resp.status = 404 then
        .done (.error (.notFound resp data))
      else if resp.status = 500 ∨ resp.status = 502 ∨ resp.status = 504 ∨
          resp.status = 503 ∨ resp.status = 524 then
        if attempt < max_retries - 1 then .retry (some (2 ^ attempt))
        else .done (.error (.serviceUnavailable resp data))
      else
        .retry none

/-- Observable trace of one `HTTPClient.request` call: the number of
attempts actually performed (network calls issued), the backoff sleeps in
the order they happened, and the final result. -/
structure ReqTrace where
  attempts : Nat
  sleeps : List Nat
  result : ReqResult
deriving DecidableEq, Repr

/-- The `for attempt in range(max_retries)` loop of `HTTPClient.request`:
`fuel` is the number of remaining iterations, `attempt` the current index,
`sleepsRev` the backoff sleeps so far in reverse order. When the loop ends
without returning, the source raises `RuntimeError("Unreachable code in
HTTP handling")`. -/
def requestGo (outcomes : Nat → AttemptOutcome) (max_retries : Nat) :
    Nat → Nat → List Nat → ReqTrace
  | 0, attempt, sleepsRev =>
      { attempts := attempt, sleeps := sleepsRev.reverse,
        result := .error .runtimeUnreachable }
  | fuel + 1, attempt, sleepsRev =>
      match classifyAttempt (outcomes attempt) attempt max_retries with
      | .done r =>
          { attempts := attempt + 1, sleeps := sleepsRev.reverse, result := r }
      | .retry s =>
          requestGo outcomes max_retries fuel (attempt + 1)
            (match s with
             | some d => d :: sleepsRev
             | none => sleepsRev)

/-- Model of `HTTPClient.request` (src/checkmk/http.py lines 128-217),
as a function of the per-attempt outcomes and `max_retries`. -/
def request (outcomes : Nat → AttemptOutcome) (max_retries : Nat) : ReqTrace :=
  requestGo outcomes max_retries max_retries 0 []

/-- What one `HTTPClient.request` call looks like from a gateway method:
it returned a decoded payload, or it raised one of its exceptions. -/
inductive TransportResult where
  | success (d : RespData)
  | exc (e : HTTPErrorKind)

/-- The result of `CheckmkHTTP.get_hosts`: the payload returned verbatim, a
`HostFetchError` wrapping the transport exception, or a `HostParseError`
carrying the raw payload. -/
inductive HostsResult where
  | success (d : RespData)
  | hostFetchError (cause : HTTPErrorKind)
  | hostParseError (raw : RespData)
deriving DecidableEq, Repr

/-- The result of `CheckmkHTTP.get_services`: the payload returned verbatim,
a `ServiceFetchError` wrapping the transport exception, or a
`ServiceParseError` carrying the raw payload. -/
inductive ServicesResult where
  | success (d : RespData)
  | serviceFetchError (cause : HTTPErrorKind)
  | serviceParseError (raw : RespData)
deriving DecidableEq, Repr

/-- Model of `CheckmkHTTP.get_hosts` (src/checkmk/http.py lines 294-317):
any exception from `self.client.request` is caught and re-raised as
`HostFetchError` chaining the original; on success,
`if not response or "value" not in response` raises `HostParseError`,
otherwise the response is returned unchanged. -/
def get_hosts (t : TransportResult) : HostsResult :=
  match t with
  | .exc e => .hostFetchError e
  | .success response =>
      if !pyTruthyData response || !pyHasValueKey response then
        .hostParseError response
      else
        .success response

/-- Model of `CheckmkHTTP.get_services` (src/checkmk/http.py lines 260-289):
same shape as `get_hosts` with the service-scoped errors. -/
def get_services (t : TransportResult) : ServicesResult :=
  match t with
  | .exc e => .serviceFetchError e
  | .success response =>
      if !pyTruthyData response || !pyHasValueKey response then
        .serviceParseError response
      else
        .success response

/-- What a gateway write operation returns to its caller on a successful
(2xx) transport call: the decoded response body passed through, or the
Python literal `True`. -/
inductive WriteResult where
  | body (d : RespData)
  | pyTrue
deriving DecidableEq, Repr

/-- Model of `CheckmkHTTP.add_service_comment` (src/checkmk/http.py lines
319-329) on a successful transport call: `return await
self.client.request(...)`, i.e. the decoded body is returned as-is. -/
def add_service_comment (transportPayload : RespData) : WriteResult :=
  .body transportPayload

/-- Model of `CheckmkHTTP.add_host_comment` (src/checkmk/http.py lines
331-341) on a successful transport call: the decoded body is returned
as-is. -/
def add_host_comment (transportPayload : RespData) : WriteResult :=
  .body transportPayload

/-- Model of `CheckmkHTTP.add_host_acknowledgement` (src/checkmk/http.py
lines 343-354) on a successful transport call: the response is discarded
and `True` is returned. -/
def add_host_acknowledgement (_ : RespData) : WriteResult :=
  .pyTrue

/-- Model of `CheckmkHTTP.add_service_acknowledgement` (src/checkmk/http.py
lines 356-369) on a successful transport call: the response is discarded
and `True` is returned. -/
def add_service_acknowledgement (_ : RespData) : WriteResult :=
  .pyTrue

/-- How an `acknowledge` call on a Host or Service resource ends: one of the
two domain precondition errors, or the acknowledgement request handed to
the transport. -/
inductive AckOutcome where
  | alreadyAcknowledgedError
  | noProblemError
  | acknowledgementSent
deriving DecidableEq, Repr

/-- Model of `Host.problem` (src/checkmk/host.py lines 217-219):
`HostStates(state).value != 0`. The `HostStates` enum lives in
src/checkmk/enums.py, which is absent from the sources; modelled from the
spec, which reduces "problem" to the numeric state code, as the standard
Python Enum value round-trip, so `problem` is `state != 0`. -/
def hostProblem (stateVal : Nat) : Bool :=
  stateVal != 0

/-- Model of `Service.problem` (src/checkmk/service.py lines 236-238):
`ServiceStates(state).value != 0`, with the same spec-modelled Enum value
round-trip as `hostProblem`. -/
def serviceProblem (stateVal : Nat) : Bool :=
  stateVal != 0

/-- Model of `Host.acknowledge` (src/checkmk/host.py lines 229-256) as a
function of the host's `acknowledged` flag and numeric state: the outcome,
paired with the number of transport invocations issued. -/
def hostAcknowledge (acknowledged : Bool) (stateVal : Nat) : AckOutcome × Nat :=
  if acknowledged then
    (.alreadyAcknowledgedError, 0)
  else if !hostProblem stateVal then
    (.noProblemError, 0)
  else
    (.acknowledgementSent, 1)

/-- Model of `Service.acknowledge` (src/checkmk/service.py lines 252-279),
same control flow as `hostAcknowledge` with the service-scoped errors. -/
def serviceAcknowledge (acknowledged : Bool) (stateVal : Nat) : AckOutcome × Nat :=
  if acknowledged then
    (.alreadyAcknowledgedError, 0)
  else if !serviceProblem stateVal then
    (.noProblemError, 0)
  else
    (.acknowledgementSent, 1)

/-- A payload containing the "value" key implies a truthy (non-empty)
payload: a dict with a member is non-empty, and a string containing the
substring "value" is non-empty. -/
theorem pyTruthy_of_hasValueKey (d : RespData) (h : pyHasValueKey d = true) :
    pyTruthyData d = true := by
  cases d with
  | dict keys =>
      cases keys with
      | nil => simp [pyHasValueKey] at h
      | cons a as => simp [pyTruthyData]
  | str s =>
      cases hs : s.data with
      | nil =>
          simp only [pyHasValueKey, pyInStr, hs] at h
          exact absurd h (by decide)
      | cons c cs => simp [pyTruthyData, pyTruthyStrVal, hs]

/-- Example server-error response used to instantiate the retry theorems. -/
def exResp503 : RawResponse :=
  { status := 503, url := "https://cmk/api", contentType := "application/json",
    retryAfter := none, jsonBody := some (.dict ["title"]), textBody := "unavailable" }

/-- Example 400 response: a status matched by none of the branches of the
retry loop of `HTTPClient.request`. -/
def exResp400 : RawResponse :=
  { status := 400, url := "https://cmk/api", contentType := "application/json",
    retryAfter := none, jsonBody := some (.dict ["title", "detail"]), textBody := "bad request" }

/-- Example 401 response used to instantiate the terminal-status theorem. -/
def exResp401 : RawResponse :=
  { status := 401, url := "https://cmk/api", contentType := "application/json",
    retryAfter := none, jsonBody := some (.dict ["title"]), textBody := "denied" }

/-- Example 200 response whose Content-Type advertises JSON but whose body
fails the JSON decode. -/
def exResp200BadJson : RawResponse :=
  { status := 200, url := "https://cmk/api", contentType := "application/json",
    retryAfter := none, jsonBody := none, textBody := "oops not json" }

/-- Claim C1: for every response status in 500, 502, 503, 504, 524, a
`HTTPClient.request` call with `max_retries = 3` that receives that response
on every attempt performs exactly 3 attempts, sleeps 1 second after the
first failed attempt and 2 seconds after the second, performs no sleep
after the final attempt, and raises `ServiceUnavailable`. -/
theorem c1_server_errors_retry_with_backoff (r : RawResponse)
    (outs : Nat → AttemptOutcome) (hout : ∀ i, outs i = .response r)
    (hs : r.status = 500 ∨ r.status = 502 ∨ r.status = 503 ∨ r.status = 504 ∨
      r.status = 524) :
    request outs 3 =
      { attempts := 3, sleeps := [1, 2],
        result := .error (.serviceUnavailable r (json_or_text r)) } := by
  have h0 := hout 0
  have h1 := hout 1
  have h2 := hout 2
  rcases hs with hs | hs | hs | hs | hs <;>
    simp [request, requestGo, classifyAttempt, h0, h1, h2, hs]

/-- Witness for C1 at a concrete 503 response. -/
theorem c1_witness :
    request (fun _ => .response exResp503) 3 =
      { attempts := 3, sleeps := [1, 2],
        result := .error (.serviceUnavailable exResp503 (json_or_text exResp503)) } :=
  c1_server_errors_retry_with_backoff exResp503 (fun _ => .response exResp503)
    (fun _ => rfl) (Or.inr (Or.inr (Or.inl rfl)))

/-- Claim C2 (the code at the failing input): a 400 response — a non-2xx
status matched by no branch of the retry loop — is silently re-attempted on
every iteration with no sleep, and after `max_retries = 3` attempts the
call raises `RuntimeError("Unreachable code in HTTP handling")`, not a
typed terminal generic HTTP error on the first attempt. -/
theorem c2_unclassified_status_reaches_unreachable :
    request (fun _ => .response exResp400) 3 =
      { attempts := 3, sleeps := [], result := .error .runtimeUnreachable } := by
  decide

/-- Counterexample to claim C3: with a truthy `json_body` and a truthy raw
`data` body both supplied, `HTTPClient.request` does not attach exactly one
body — both the `"json"` and `"data"` keys of the outgoing kwargs are set. -/
theorem c3_counterexample :
    ¬ (((attachBodies (some [("k", "v")]) (some "raw")).json.isSome = true ∧
        (attachBodies (some [("k", "v")]) (some "raw")).data = none) ∨
       ((attachBodies (some [("k", "v")]) (some "raw")).json = none ∧
        (attachBodies (some [("k", "v")]) (some "raw")).data.isSome = true)) := by
  decide

/-- Claim C3 as amended: when both `json_body` and `data` are supplied and
truthy, both bodies are attached to the outgoing request kwargs — the JSON
body under `"json"` and the raw body under `"data"` — with no precedence
between them. -/
theorem c3_both_bodies_attached (jb : List (String × String)) (raw : String)
    (hj : pyTruthyDict (some jb) = true) (hr : pyTruthyRaw (some raw) = true) :
    attachBodies (some jb) (some raw) = { json := some jb, data := some raw } := by
  simp [attachBodies, hj, hr]

/-- Witness for the amended C3 at concrete bodies. -/
theorem c3_witness :
    attachBodies (some [("k", "v")]) (some "raw") =
      { json := some [("k", "v")], data := some "raw" } :=
  c3_both_bodies_attached [("k", "v")] "raw" (by decide) (by decide)

/-- Claim C4: on a successful (2xx) transport response, `get_hosts` and
`get_services` raise `HostParseError` / `ServiceParseError` — never a fetch
error — when the decoded payload lacks the "value" key (which subsumes the
empty/falsy payloads), and return the payload verbatim when it has it. -/
theorem c4_missing_value_is_parse_error (d : RespData) :
    (pyHasValueKey d = true →
      get_hosts (.success d) = .success d ∧ get_services (.success d) = .success d) ∧
    (pyHasValueKey d = false →
      get_hosts (.success d) = .hostParseError d ∧
      get_services (.success d) = .serviceParseError d) := by
  constructor
  · intro h
    have ht := pyTruthy_of_hasValueKey d h
    simp [get_hosts, get_services, h, ht]
  · intro h
    simp [get_hosts, get_services, h]

/-- Witness for C4 at a payload with the "value" key and one without. -/
theorem c4_witness :
    get_hosts (.success (.dict ["value"])) = .success (.dict ["value"]) ∧
    get_services (.success (.dict ["unexpected"])) = .serviceParseError (.dict ["unexpected"]) :=
  ⟨((c4_missing_value_is_parse_error (.dict ["value"])).1 (by decide)).1,
   ((c4_missing_value_is_parse_error (.dict ["unexpected"])).2 (by decide)).2⟩

/-- Counterexample to claim C5: a host that is already acknowledged and not
in a problem state (state 0) raises the already-acknowledged error, not the
no-problem error the claim requires for every state-0 resource. -/
theorem c5_counterexample :
    hostAcknowledge true 0 = (.alreadyAcknowledgedError, 0) ∧
    (hostAcknowledge true 0).1 ≠ AckOutcome.noProblemError := by
  decide

/-- Claim C5 as amended: an acknowledged Host or Service always gets the
already-acknowledged error, a not-acknowledged one with state 0 gets the
no-problem error, and in both cases zero transport invocations are issued. -/
theorem c5_preconditions_block_network (ack : Bool) (st : Nat) :
    (ack = true →
      hostAcknowledge ack st = (.alreadyAcknowledgedError, 0) ∧
      serviceAcknowledge ack st = (.alreadyAcknowledgedError, 0)) ∧
    (ack = false → st = 0 →
      hostAcknowledge ack st = (.noProblemError, 0) ∧
      serviceAcknowledge ack st = (.noProblemError, 0)) := by
  constructor
  · intro h
    subst h
    simp [hostAcknowledge, serviceAcknowledge]
  · intro h1 h2
    subst h1
    subst h2
    simp [hostAcknowledge, serviceAcknowledge, hostProblem, serviceProblem]

/-- Witness for the amended C5 at concrete states. -/
theorem c5_witness :
    hostAcknowledge true 5 = (.alreadyAcknowledgedError, 0) ∧
    serviceAcknowledge false 0 = (.noProblemError, 0) :=
  ⟨((c5_preconditions_block_network true 5).1 rfl).1,
   ((c5_preconditions_block_network false 0).2 rfl rfl).2⟩

/-- Claim C6: a 401 response makes `HTTPClient.request` raise `Unauthorized`
on the first attempt with zero retries and zero sleeps, and likewise 403
raises `Forbidden` and 404 raises `NotFound`, for every `max_retries ≥ 1`. -/
theorem c6_terminal_statuses_first_attempt (r : RawResponse)
    (outs : Nat → AttemptOutcome) (n : Nat)
    (hout : outs 0 = .response r) (hn : 1 ≤ n) :
    (r.status = 401 → request outs n =
      { attempts := 1, sleeps := [], result := .error (.unauthorized r (json_or_text r)) }) ∧
    (r.status = 403 → request outs n =
      { attempts := 1, sleeps := [], result := .error (.forbidden r (json_or_text r)) }) ∧
    (r.status = 404 → request outs n =
      { attempts := 1, sleeps := [], result := .error (.notFound r (json_or_text r)) }) := by
  obtain ⟨m, rfl⟩ : ∃ m, n = m + 1 := ⟨n - 1, by omega⟩
  refine ⟨fun hs => ?_, fun hs => ?_, fun hs => ?_⟩ <;>
    simp [request, requestGo, classifyAttempt, hout, hs]

/-- Witness for C6 at a concrete 401 response with `max_retries = 5`. -/
theorem c6_witness :
    request (fun _ => .response exResp401) 5 =
      { attempts := 1, sleeps := [],
        result := .error (.unauthorized exResp401 (json_or_text exResp401)) } :=
  (c6_terminal_statuses_first_attempt exResp401 (fun _ => .response exResp401) 5
    rfl (by omega)).1 rfl

/-- Claim C7: when the Content-Type header contains "json" but the body
fails JSON decoding, `json_or_text` returns the raw body text, and a 2xx
`HTTPClient.request` call returns that text as a success on the first
attempt — the call never fails because of the decode mismatch. -/
theorem c7_json_decode_falls_back_to_text (r : RawResponse)
    (outs : Nat → AttemptOutcome) (n : Nat)
    (hct : pyInStr "json" r.contentType = true) (hdec : r.jsonBody = none) :
    json_or_text r = .str r.textBody ∧
    (outs 0 = .response r → 1 ≤ n → 200 ≤ r.status → r.status < 300 →
      request outs n =
        { attempts := 1, sleeps := [], result := .success (.str r.textBody) }) := by
  have hj : json_or_text r = .str r.textBody := by simp [json_or_text, hct, hdec]
  refine ⟨hj, fun hout hn h2 h3 => ?_⟩
  obtain ⟨m, rfl⟩ : ∃ m, n = m + 1 := ⟨n - 1, by omega⟩
  simp [request, requestGo, classifyAttempt, hout, h2, h3, hj]

/-- Witness for C7 at a concrete 200 response with an undecodable body. -/
theorem c7_witness :
    json_or_text exResp200BadJson = .str "oops not json" ∧
    request (fun _ => .response exResp200BadJson) 3 =
      { attempts := 1, sleeps := [], result := .success (.str "oops not json") } :=
  ⟨(c7_json_decode_falls_back_to_text exResp200BadJson
      (fun _ => .response exResp200BadJson) 3 (by decide) rfl).1,
   (c7_json_decode_falls_back_to_text exResp200BadJson
      (fun _ => .response exResp200BadJson) 3 (by decide) rfl).2
        rfl (by omega) (by decide) (by decide)⟩

/-- Claim C8 (the code at the failing input): on a successful (2xx)
transport call, the acknowledgement write operations return the boolean
`True`, but the comment write operations return the decoded response body
unchanged — which is not the boolean `True` the claim requires of all four. -/
theorem c8_comment_ops_return_body_not_bool :
    add_host_comment (.dict ["id"]) = .body (.dict ["id"]) ∧
    add_service_comment (.dict ["id"]) = .body (.dict ["id"]) ∧
    add_host_acknowledgement (.dict ["id"]) = .pyTrue ∧
    add_service_acknowledgement (.dict ["id"]) = .pyTrue ∧
    WriteResult.body (.dict ["id"]) ≠ WriteResult.pyTrue := by
  decide

/-- Claim C9: every exception raised by the transport inside `get_hosts` /
`get_services` — the typed terminal errors included — is caught and
re-raised as `HostFetchError` / `ServiceFetchError` wrapping the original,
so no transport exception propagates unchanged out of the two fetch
operations. -/
theorem c9_transport_exceptions_wrapped (e : HTTPErrorKind) :
    get_hosts (.exc e) = .hostFetchError e ∧
    get_services (.exc e) = .serviceFetchError e :=
  ⟨rfl, rfl⟩

/-- Claim C10: when the 2xx body was decoded to a text string by the
JSON-to-text fallback, the gateway tests the "value" key with Python string
membership: every non-empty string containing the substring "value" is
returned as success, and every string not containing it raises
`HostParseError` / `ServiceParseError`. -/
theorem c10_string_membership_value_check (s : String) :
    (pyTruthyStrVal s = true → pyInStr "value" s = true →
      get_hosts (.success (.str s)) = .success (.str s) ∧
      get_services (.success (.str s)) = .success (.str s)) ∧
    (pyInStr "value" s = false →
      get_hosts (.success (.str s)) = .hostParseError (.str s) ∧
      get_services (.success (.str s)) = .serviceParseError (.str s)) := by
  constructor
  · intro h1 h2
    simp [get_hosts, get_services, pyTruthyData, pyHasValueKey, h1, h2]
  · intro h
    simp [get_hosts, get_services, pyHasValueKey, h]

/-- Witness for C10 at a string containing "value" and one not containing it. -/
theorem c10_witness :
    get_hosts (.success (.str "a value here")) = .success (.str "a value here") ∧
    get_services (.success (.str "nope")) = .serviceParseError (.str "nope") :=
  ⟨((c10_string_membership_value_check "a value here").1 (by decide) (by decide)).1,
   ((c10_string_membership_value_check "nope").2 (by decide)).2⟩

end Checkmk
